import Mathlib

/-!
Verification of the `Fashion` web service (`src/app.py`), a Flask app with a
single `/upload` route.  The route validates the multipart request, saves the
uploaded file, runs CLIP zero-shot classification over two fixed label lists
(`analyze_outfit`), and issues two chat-completion requests to OpenRouter
(`generate_suggestions`, `generate_remixing_suggestions`), returning a JSON
object with `feedback`, `recommendations` and `remixing_suggestions`.

The embedding is shallow: the nondeterministic environment (model inference,
file system, HTTP API) is passed in explicitly, probabilities are rationals,
and the handler additionally returns a list of effect events (file saved,
analyzer invoked, each suggestion call made) so that claims about side
effects and retries can be stated.
-/

namespace Fashion

/-- The hardcoded garment label list of `analyze_outfit` (app.py line 87). -/
def clothing_items : List String :=
  ["suit", "t-shirt", "jeans", "dress", "jacket", "shorts", "skirt", "hoodie",
   "shirt", "sweater"]

/-- The hardcoded style label list of `analyze_outfit` (app.py line 89). -/
def styles : List String :=
  ["casual", "formal", "sporty", "elegant", "bohemian", "streetwear"]

/-- Ordering used by `sorted(..., key=lambda x: x[1], reverse=True)`:
`a` may precede `b` iff `a`'s probability is at least `b`'s.  Python's sort is
stable; `List.insertionSort` with this relation has the same behaviour. -/
def probGE (a b : String × ℚ) : Prop := b.2 ≤ a.2

instance : DecidableRel probGE := fun a b => inferInstanceAs (Decidable (b.2 ≤ a.2))

instance : IsTotal (String × ℚ) probGE := ⟨fun a b => le_total b.2 a.2⟩

instance : IsTrans (String × ℚ) probGE := ⟨fun _ _ _ h1 h2 => le_trans h2 h1⟩

/-- Python's `sorted(pairs, key=lambda x: x[1], reverse=True)`: a stable sort
placing larger probabilities first. -/
def sortDesc (l : List (String × ℚ)) : List (String × ℚ) := l.insertionSort probGE

/-- `top_items` of `analyze_outfit` (app.py line 95): zip the garment labels
with their softmax probabilities, sort descending, keep the first three. -/
def top_items (probs : List ℚ) : List (String × ℚ) :=
  (sortDesc (clothing_items.zip probs)).take 3

/-- `top_styles` of `analyze_outfit` (app.py line 101). -/
def top_styles (probs : List ℚ) : List (String × ℚ) :=
  (sortDesc (styles.zip probs)).take 3

/-- The two softmax probability vectors produced by the CLIP model for one
image: one over `clothing_items`, one over `styles` (app.py lines 91-100). -/
structure ClipOutputs where
  probsItems : List ℚ
  probsStyles : List ℚ
  deriving DecidableEq

/-- Outcome of opening the image and running the model: either the two
probability vectors, or an exception (unreadable file, non-image, inference
failure) with its message. -/
inductive InferenceResult where
  | ok (o : ClipOutputs)
  | exn (msg : String)
  deriving DecidableEq

/-- The feedback f-string template (app.py line 103). -/
def mkFeedback (s0 s1 s2 : String) : String :=
  "This outfit is " ++ s0 ++ "! It also works well for " ++ s1 ++ " and " ++ s2 ++ "."

/-- The outfit-description f-string template (app.py line 104). -/
def mkDescription (i0 i1 i2 : String) : String :=
  "The outfit includes a " ++ i0 ++ ", " ++ i1 ++ ", and " ++ i2 ++ "."

/-- Fallback feedback returned by `analyze_outfit` on any failure (line 112). -/
def errFeedback : String := "Error analyzing outfit."

/-- Fallback description returned by `analyze_outfit` on any failure (line 112). -/
def errDescription : String := "Outfit analysis failed."

/-- The body of `analyze_outfit`'s `try` block after inference succeeded
(app.py lines 95-106).  Indexing `top_styles[k][0]` / `top_items[k][0]` raises
`IndexError` when the list is too short; this is modelled by `Option`. -/
def analyzeCore (o : ClipOutputs) : Option (String × String) := do
  let ti := top_items o.probsItems
  let ts := top_styles o.probsStyles
  let s0 ← ts.get? 0
  let s1 ← ts.get? 1
  let s2 ← ts.get? 2
  let i0 ← ti.get? 0
  let i1 ← ti.get? 1
  let i2 ← ti.get? 2
  pure (mkFeedback s0.1 s1.1 s2.1, mkDescription i0.1 i1.1 i2.1)

/-- `analyze_outfit` (app.py lines 83-112): every exception inside the `try`
block — failing to open the image, inference failure, or an `IndexError`
while building the strings — is caught and mapped to the fixed fallback pair. -/
def analyze_outfit : InferenceResult → String × String
  | .exn _ => (errFeedback, errDescription)
  | .ok o => (analyzeCore o).getD (errFeedback, errDescription)

/-- One element of the `choices` array of the OpenRouter response.
`content` is `choices[k]["message"]["content"]`; `.error m` models the
`KeyError`/`TypeError` (with message `m`) raised when that access fails. -/
structure Choice where
  content : Except String String

/-- The parsed JSON of one OpenRouter response. `choices = none` models the
`"choices"` key being absent; `reprStr` is the Python string rendering of the
whole JSON value, interpolated into the no-choices error message. -/
structure ApiJson where
  choices : Option (List Choice)
  reprStr : String

/-- Outcome of one `requests.post` + `raise_for_status` + `.json()` sequence:
either a `requests.exceptions.RequestException` (network failure, HTTP error
status, JSON decode error) with its message, or a parsed JSON value. -/
inductive HttpOutcome where
  | requestExn (msg : String)
  | ok (j : ApiJson)

/-- `generate_suggestions` (app.py lines 115-157).  `style` is interpolated
into the prompt only, so it does not affect the returned string. -/
def generate_suggestions (style : String) (out : HttpOutcome) : String :=
  match style, out with
  | _, .requestExn m => "Network error during API call: " ++ m
  | _, .ok j =>
    match j.choices with
    | some (c :: _) =>
      match c.content with
      | .ok t => t
      | .error m => "Error generating suggestions: " ++ m
    | some [] => "Error: No 'choices' found in API response: " ++ j.reprStr
    | none => "Error: No 'choices' found in API response: " ++ j.reprStr

/-- `generate_remixing_suggestions` (app.py lines 160-202): identical to
`generate_suggestions` up to the prompts and the generic error message. -/
def generate_remixing_suggestions (outfit_description : String) (out : HttpOutcome) : String :=
  match outfit_description, out with
  | _, .requestExn m => "Network error during API call: " ++ m
  | _, .ok j =>
    match j.choices with
    | some (c :: _) =>
      match c.content with
      | .ok t => t
      | .error m => "Error generating remixing suggestions: " ++ m
    | some [] => "Error: No 'choices' found in API response: " ++ j.reprStr
    | none => "Error: No 'choices' found in API response: " ++ j.reprStr

/-- Observable behaviour of one suggestion-client call, as the spec describes
it: either the first choice's message text is extracted and returned verbatim,
or the call failed and one of the three fallback error strings is returned
(network/HTTP/JSON-decode failure, a generic exception while extracting, or a
missing/empty `choices` array). -/
def ClientBehavior (result errPre : String) (out : HttpOutcome) : Prop :=
  (∃ j c rest t, out = .ok j ∧ j.choices = some (c :: rest) ∧
     c.content = .ok t ∧ result = t) ∨
  (∃ m, out = .requestExn m ∧ result = "Network error during API call: " ++ m) ∨
  (∃ j m, out = .ok j ∧ result = errPre ++ m) ∨
  (∃ j, out = .ok j ∧ (j.choices = none ∨ j.choices = some []) ∧
     result = "Error: No 'choices' found in API response: " ++ j.reprStr)

/-- The uploaded file part: `request.files['file']`. -/
structure FilePart where
  filename : String
  deriving DecidableEq

/-- An `/upload` request: `file = none` models `'file' not in request.files`. -/
structure UploadRequest where
  file : Option FilePart
  deriving DecidableEq

/-- The environment one `/upload` request runs against: the result of
`file.save`, of the CLIP inference, and of the two OpenRouter calls. -/
structure Env where
  saveResult : Except String Unit
  inference : InferenceResult
  api1 : HttpOutcome
  api2 : HttpOutcome

/-- JSON body of an `/upload` response: either the three-field success object
or the single-field error object. -/
inductive Body where
  | success (feedback recommendations remixing : String)
  | error (msg : String)
  deriving DecidableEq

/-- An HTTP response: JSON body plus status code (Flask defaults to 200). -/
structure HttpResponse where
  body : Body
  status : Nat
  deriving DecidableEq

/-- Side effects of one `/upload` request, in order: the file write and each
downstream invocation. -/
inductive Event where
  | saved (path : String)
  | analyzed
  | suggested
  | remixed
  deriving DecidableEq

/-- POSIX `os.path.join(a, b)` for a single join (app.py line 52): an absolute
`b` discards `a`; otherwise the parts are joined with `/`. -/
def os_path_join (a b : String) : String :=
  if b.data.head? = some '/' then b
  else if a.data.getLast? = some '/' then a ++ b
  else a ++ "/" ++ b

/-- Split a character list on `/`. -/
def splitSlash : List Char → List Char → List String
  | [], acc => [⟨acc.reverse⟩]
  | c :: cs, acc =>
    if c = '/' then (⟨acc.reverse⟩ : String) :: splitSlash cs []
    else splitSlash cs (c :: acc)

/-- The `/`-separated components of a path. -/
def pathComponents (p : String) : List String := splitSlash p.data []

/-- Resolve `.` and `..` path components (left to right, never above root). -/
def resolveComponents (cs : List String) : List String :=
  cs.foldl (fun acc c =>
    if c = "" ∨ c = "." then acc
    else if c = ".." then acc.dropLast
    else acc ++ [c]) []

/-- A relative path stays inside the `uploads` directory iff its resolved
component list still starts with `uploads`. -/
def underUploads (p : String) : Bool :=
  match resolveComponents (pathComponents p) with
  | "uploads" :: _ => true
  | _ => false

/-- The `/upload` handler (app.py lines 35-80), returning the HTTP response
together with the list of side effects performed.  Inside the `try` block the
only statement that can raise is `file.save` (the three helper functions catch
all of their own exceptions), so the outer `except` producing the 500 response
is reached exactly on a save failure. -/
def upload (req : UploadRequest) (env : Env) : HttpResponse × List Event :=
  match req.file with
  | none => (⟨.error "No file uploaded", 400⟩, [])
  | some file =>
    if file.filename = "" then (⟨.error "No file selected", 400⟩, [])
    else
      let image_path := os_path_join "uploads" file.filename
      match env.saveResult with
      | .error e => (⟨.error ("Error in /upload: " ++ e), 500⟩, [])
      | .ok _ =>
        let fb := analyze_outfit env.inference
        let recommendations := generate_suggestions fb.1 env.api1
        let remixing_suggestions := generate_remixing_suggestions fb.2 env.api2
        (⟨.success fb.1 recommendations remixing_suggestions, 200⟩,
         [.saved image_path, .analyzed, .suggested, .remixed])

/-! ### Helper lemmas about the stable descending sort -/

theorem sortDesc_sorted (l : List (String × ℚ)) : List.Sorted probGE (sortDesc l) :=
  List.sorted_insertionSort probGE l

theorem sortDesc_perm (l : List (String × ℚ)) : (sortDesc l).Perm l :=
  List.perm_insertionSort probGE l

theorem sortDesc_length (l : List (String × ℚ)) : (sortDesc l).length = l.length :=
  List.length_insertionSort probGE l

theorem sortDesc_take_sorted (l : List (String × ℚ)) :
    List.Sorted probGE ((sortDesc l).take 3) :=
  (sortDesc_sorted l).sublist (List.take_sublist 3 (sortDesc l))

theorem sortDesc_take_append_drop (l : List (String × ℚ)) :
    ((sortDesc l).take 3 ++ (sortDesc l).drop 3).Perm l := by
  rw [List.take_append_drop]
  exact sortDesc_perm l

theorem sortDesc_drop_le_take (l : List (String × ℚ)) :
    ∀ b ∈ (sortDesc l).drop 3, ∀ a ∈ (sortDesc l).take 3, b.2 ≤ a.2 := by
  have hs : List.Sorted probGE (sortDesc l) := sortDesc_sorted l
  rw [← List.take_append_drop 3 (sortDesc l)] at hs
  have h := (List.pairwise_append.mp hs).2.2
  intro b hb a ha
  exact h a ha b hb

theorem length_top_items (pI : List ℚ) (hI : pI.length = 10) :
    (top_items pI).length = 3 := by
  have hz : (clothing_items.zip pI).length = 10 := by
    rw [List.length_zip, hI]
    decide
  simp [top_items, List.length_take, sortDesc_length, hz]

theorem length_top_styles (pS : List ℚ) (hS : pS.length = 6) :
    (top_styles pS).length = 3 := by
  have hz : (styles.zip pS).length = 6 := by
    rw [List.length_zip, hS]
    decide
  simp [top_styles, List.length_take, sortDesc_length, hz]

theorem top_items_mem_zip {pI : List ℚ} {p : String × ℚ} (hp : p ∈ top_items pI) :
    p ∈ clothing_items.zip pI :=
  (sortDesc_perm _).subset (List.mem_of_mem_take hp)

theorem top_styles_mem_zip {pS : List ℚ} {p : String × ℚ} (hp : p ∈ top_styles pS) :
    p ∈ styles.zip pS :=
  (sortDesc_perm _).subset (List.mem_of_mem_take hp)

theorem top_items_label_mem {pI : List ℚ} {p : String × ℚ} (hp : p ∈ top_items pI) :
    p.1 ∈ clothing_items := by
  obtain ⟨s, q⟩ := p
  exact (List.of_mem_zip (top_items_mem_zip hp)).1

theorem top_styles_label_mem {pS : List ℚ} {p : String × ℚ} (hp : p ∈ top_styles pS) :
    p.1 ∈ styles := by
  obtain ⟨s, q⟩ := p
  exact (List.of_mem_zip (top_styles_mem_zip hp)).1

theorem top_items_triple (pI : List ℚ) (hI : pI.length = 10) :
    ∃ i0 i1 i2, top_items pI = [i0, i1, i2] :=
  List.length_eq_three.mp (length_top_items pI hI)

theorem top_styles_triple (pS : List ℚ) (hS : pS.length = 6) :
    ∃ s0 s1 s2, top_styles pS = [s0, s1, s2] :=
  List.length_eq_three.mp (length_top_styles pS hS)

theorem analyze_ok_eq (o : ClipOutputs) {s0 s1 s2 i0 i1 i2 : String × ℚ}
    (hts : top_styles o.probsStyles = [s0, s1, s2])
    (hti : top_items o.probsItems = [i0, i1, i2]) :
    analyze_outfit (.ok o) = (mkFeedback s0.1 s1.1 s2.1, mkDescription i0.1 i1.1 i2.1) := by
  simp [analyze_outfit, analyzeCore, hts, hti]

/-- C1: for every image, `analyze_outfit` keeps exactly the top three labels
per list: `top_items` (resp. `top_styles`) has length three, is sorted in
descending order of probability, and together with the discarded remainder is
a permutation of the zipped (label, probability) list, every discarded pair
having probability at most that of every kept pair. -/
theorem top3_per_list (pI pS : List ℚ) (hI : pI.length = 10) (hS : pS.length = 6) :
    ((top_items pI).length = 3 ∧ List.Sorted probGE (top_items pI) ∧
      (top_items pI ++ (sortDesc (clothing_items.zip pI)).drop 3).Perm
        (clothing_items.zip pI) ∧
      ∀ b ∈ (sortDesc (clothing_items.zip pI)).drop 3,
        ∀ a ∈ top_items pI, b.2 ≤ a.2) ∧
    ((top_styles pS).length = 3 ∧ List.Sorted probGE (top_styles pS) ∧
      (top_styles pS ++ (sortDesc (styles.zip pS)).drop 3).Perm (styles.zip pS) ∧
      ∀ b ∈ (sortDesc (styles.zip pS)).drop 3, ∀ a ∈ top_styles pS, b.2 ≤ a.2) :=
  ⟨⟨length_top_items pI hI, sortDesc_take_sorted _, sortDesc_take_append_drop _,
    sortDesc_drop_le_take _⟩,
   ⟨length_top_styles pS hS, sortDesc_take_sorted _, sortDesc_take_append_drop _,
    sortDesc_drop_le_take _⟩⟩

theorem top3_per_list_witness :
    (top_items [1, 2, 3, 4, 5, 6, 7, 8, 9, 10]).length = 3 ∧
    (top_styles [6, 3, 1, 0, 0, 0]).length = 3 :=
  ⟨(top3_per_list [1, 2, 3, 4, 5, 6, 7, 8, 9, 10] [6, 3, 1, 0, 0, 0]
      (by decide) (by decide)).1.1,
   (top3_per_list [1, 2, 3, 4, 5, 6, 7, 8, 9, 10] [6, 3, 1, 0, 0, 0]
      (by decide) (by decide)).2.1⟩

/-- C3 counterexample: the feedback string is not filled from the single
top-ranked style label alone.  Two probability vectors with the same top
style (`casual`) but swapped runners-up yield different feedback strings,
because the template interpolates three style labels. -/
theorem feedback_single_style_cex :
    ((top_styles [6, 3, 1, 0, 0, 0]).head?.map Prod.fst = some "casual" ∧
     (top_styles [6, 1, 3, 0, 0, 0]).head?.map Prod.fst = some "casual") ∧
    (analyze_outfit (.ok ⟨[1, 2, 3, 4, 5, 6, 7, 8, 9, 10], [6, 3, 1, 0, 0, 0]⟩)).1 ≠
      (analyze_outfit (.ok ⟨[1, 2, 3, 4, 5, 6, 7, 8, 9, 10], [6, 1, 3, 0, 0, 0]⟩)).1 := by
  decide

/-- C3 (amended): on the success path `analyze_outfit` returns exactly two
template-filled strings: the feedback string is filled with the three
top-ranked style labels (top-ranked first) and the outfit-description string
with the three top-ranked garment labels. -/
theorem analyze_success_strings (o : ClipOutputs) (hI : o.probsItems.length = 10)
    (hS : o.probsStyles.length = 6) :
    ∃ s0 s1 s2 i0 i1 i2 : String × ℚ,
      top_styles o.probsStyles = [s0, s1, s2] ∧
      top_items o.probsItems = [i0, i1, i2] ∧
      analyze_outfit (.ok o) =
        (mkFeedback s0.1 s1.1 s2.1, mkDescription i0.1 i1.1 i2.1) := by
  obtain ⟨s0, s1, s2, hts⟩ := top_styles_triple _ hS
  obtain ⟨i0, i1, i2, hti⟩ := top_items_triple _ hI
  exact ⟨s0, s1, s2, i0, i1, i2, hts, hti, analyze_ok_eq o hts hti⟩

theorem analyze_success_strings_witness :
    ∃ s0 s1 s2 i0 i1 i2 : String × ℚ,
      top_styles [6, 3, 1, 0, 0, 0] = [s0, s1, s2] ∧
      top_items [1, 2, 3, 4, 5, 6, 7, 8, 9, 10] = [i0, i1, i2] ∧
      analyze_outfit (.ok ⟨[1, 2, 3, 4, 5, 6, 7, 8, 9, 10], [6, 3, 1, 0, 0, 0]⟩) =
        (mkFeedback s0.1 s1.1 s2.1, mkDescription i0.1 i1.1 i2.1) :=
  analyze_success_strings ⟨[1, 2, 3, 4, 5, 6, 7, 8, 9, 10], [6, 3, 1, 0, 0, 0]⟩
    (by decide) (by decide)

/-- C7: on the success path every label interpolated into the two strings is
drawn from the two fixed closed vocabularies. -/
theorem labels_in_vocab (o : ClipOutputs) (hI : o.probsItems.length = 10)
    (hS : o.probsStyles.length = 6) :
    ∃ s0 s1 s2 i0 i1 i2 : String,
      s0 ∈ styles ∧ s1 ∈ styles ∧ s2 ∈ styles ∧
      i0 ∈ clothing_items ∧ i1 ∈ clothing_items ∧ i2 ∈ clothing_items ∧
      analyze_outfit (.ok o) = (mkFeedback s0 s1 s2, mkDescription i0 i1 i2) := by
  obtain ⟨s0, s1, s2, hts⟩ := top_styles_triple _ hS
  obtain ⟨i0, i1, i2, hti⟩ := top_items_triple _ hI
  refine ⟨s0.1, s1.1, s2.1, i0.1, i1.1, i2.1, ?_, ?_, ?_, ?_, ?_, ?_,
    analyze_ok_eq o hts hti⟩
  · exact top_styles_label_mem (show s0 ∈ top_styles o.probsStyles by rw [hts]; simp)
  · exact top_styles_label_mem (show s1 ∈ top_styles o.probsStyles by rw [hts]; simp)
  · exact top_styles_label_mem (show s2 ∈ top_styles o.probsStyles by rw [hts]; simp)
  · exact top_items_label_mem (show i0 ∈ top_items o.probsItems by rw [hti]; simp)
  · exact top_items_label_mem (show i1 ∈ top_items o.probsItems by rw [hti]; simp)
  · exact top_items_label_mem (show i2 ∈ top_items o.probsItems by rw [hti]; simp)

theorem labels_in_vocab_witness :
    ∃ s0 s1 s2 i0 i1 i2 : String,
      s0 ∈ styles ∧ s1 ∈ styles ∧ s2 ∈ styles ∧
      i0 ∈ clothing_items ∧ i1 ∈ clothing_items ∧ i2 ∈ clothing_items ∧
      analyze_outfit (.ok ⟨[1, 2, 3, 4, 5, 6, 7, 8, 9, 10], [6, 3, 1, 0, 0, 0]⟩) =
        (mkFeedback s0 s1 s2, mkDescription i0 i1 i2) :=
  labels_in_vocab ⟨[1, 2, 3, 4, 5, 6, 7, 8, 9, 10], [6, 3, 1, 0, 0, 0]⟩
    (by decide) (by decide)


/-- C2 counterexample: an inference failure inside `analyze_outfit` is not
converted into a 500 JSON error at the outer handler; the handler returns a
normal 200 success response whose feedback field is the swallowed fallback
string. -/
theorem inner_failure_not_500_cex :
    (upload ⟨some ⟨"a.png"⟩⟩
        ⟨.ok (), .exn "boom", .ok ⟨some [⟨.ok "recs"⟩], "r1"⟩,
         .ok ⟨some [⟨.ok "remix"⟩], "r2"⟩⟩).1 =
      ⟨.success "Error analyzing outfit." "recs" "remix", 200⟩ := by
  decide

/-- C2 (amended): failures inside `analyze_outfit` and the two suggestion
calls are caught within those functions and surfaced as plain strings inside a
normal 200 JSON response; only a failure in the handler body itself (the file
save) reaches the outer handler, which converts it into an `error` JSON body
with status 500; every downstream call happens at most once (no retry). -/
theorem upload_error_handling (file : FilePart) (env : Env) (hf : file.filename ≠ "") :
    (∀ e, env.saveResult = .error e →
        upload ⟨some file⟩ env = (⟨.error ("Error in /upload: " ++ e), 500⟩, [])) ∧
    (env.saveResult = .ok () →
        (upload ⟨some file⟩ env).1 =
          ⟨.success (analyze_outfit env.inference).1
            (generate_suggestions (analyze_outfit env.inference).1 env.api1)
            (generate_remixing_suggestions (analyze_outfit env.inference).2 env.api2),
           200⟩) ∧
    ((upload ⟨some file⟩ env).2 = [] ∨
      (upload ⟨some file⟩ env).2 =
        [.saved (os_path_join "uploads" file.filename), .analyzed, .suggested,
         .remixed]) := by
  obtain ⟨sr, inf, a1, a2⟩ := env
  refine ⟨?_, ?_, ?_⟩
  · intro e he
    cases sr with
    | error e' =>
      cases he
      simp [upload, hf]
    | ok u => cases he
  · intro he
    cases sr with
    | error e' => cases he
    | ok u =>
      simp [upload, hf]
  · cases sr with
    | error e' => left; simp [upload, hf]
    | ok u => right; simp [upload, hf]

theorem upload_error_handling_witness :
    upload ⟨some ⟨"a.png"⟩⟩ ⟨.error "disk full", .exn "x", .requestExn "n1",
        .requestExn "n2"⟩ =
      (⟨.error "Error in /upload: disk full", 500⟩, []) := by
  have h := (upload_error_handling ⟨"a.png"⟩
      ⟨.error "disk full", .exn "x", .requestExn "n1", .requestExn "n2"⟩
      (by decide)).1 "disk full" rfl
  exact h.trans (by decide)

/-- C4: a POST with no `file` field, or with an empty filename, yields an
`error` JSON body with status 400 and performs no side effect: no file is
saved and neither the analyzer nor either suggestion call is invoked. -/
theorem upload_validation (req : UploadRequest) (env : Env)
    (h : req.file = none ∨ ∃ f, req.file = some f ∧ f.filename = "") :
    (∃ m, (upload req env).1 = ⟨.error m, 400⟩) ∧ (upload req env).2 = [] := by
  obtain ⟨fo⟩ := req
  rcases h with h | ⟨f, hf, hname⟩
  · simp only at h
    subst h
    exact ⟨⟨"No file uploaded", rfl⟩, rfl⟩
  · simp only at hf
    subst hf
    refine ⟨⟨"No file selected", ?_⟩, ?_⟩ <;> simp [upload, hname]

theorem upload_validation_witness :
    (∃ m, (upload ⟨none⟩ ⟨.ok (), .exn "x", .requestExn "n1", .requestExn "n2"⟩).1 =
        ⟨.error m, 400⟩) ∧
    (upload ⟨none⟩ ⟨.ok (), .exn "x", .requestExn "n1", .requestExn "n2"⟩).2 = [] :=
  upload_validation ⟨none⟩ ⟨.ok (), .exn "x", .requestExn "n1", .requestExn "n2"⟩
    (Or.inl rfl)

/-- C5: every `/upload` response has one of exactly two shapes: the
three-field success object with status 200, or a single-field error object
with a non-200 status that is 400 or 500. -/
theorem upload_response_shape (req : UploadRequest) (env : Env) :
    (∃ f r m, (upload req env).1 = ⟨.success f r m, 200⟩) ∨
    (∃ m, (upload req env).1.body = .error m ∧
      ((upload req env).1.status = 400 ∨ (upload req env).1.status = 500)) := by
  obtain ⟨fo⟩ := req
  obtain ⟨sr, inf, a1, a2⟩ := env
  cases fo with
  | none => exact Or.inr ⟨"No file uploaded", rfl, Or.inl rfl⟩
  | some f =>
    by_cases hf : f.filename = ""
    · refine Or.inr ⟨"No file selected", ?_, Or.inl ?_⟩ <;> simp [upload, hf]
    · cases sr with
      | error e =>
        refine Or.inr ⟨"Error in /upload: " ++ e, ?_, Or.inr ?_⟩ <;> simp [upload, hf]
      | ok u =>
        refine Or.inl ⟨(analyze_outfit inf).1,
          generate_suggestions (analyze_outfit inf).1 a1,
          generate_remixing_suggestions (analyze_outfit inf).2 a2, ?_⟩
        simp [upload, hf]

/-- C6: neither suggestion client can fail the request: each returns the first
choice's message text when the response has a well-formed non-empty `choices`
list, and otherwise one of the fallback error strings (network/HTTP failure,
extraction error, missing or empty `choices`). -/
theorem suggestion_clients_total (style desc : String) (o1 o2 : HttpOutcome) :
    ClientBehavior (generate_suggestions style o1) "Error generating suggestions: " o1 ∧
    ClientBehavior (generate_remixing_suggestions desc o2)
      "Error generating remixing suggestions: " o2 := by
  constructor
  · cases o1 with
    | requestExn m => exact Or.inr (Or.inl ⟨m, rfl, rfl⟩)
    | ok j =>
      obtain ⟨ch, rp⟩ := j
      cases ch with
      | none => exact Or.inr (Or.inr (Or.inr ⟨⟨none, rp⟩, rfl, Or.inl rfl, rfl⟩))
      | some cs =>
        cases cs with
        | nil => exact Or.inr (Or.inr (Or.inr ⟨⟨some [], rp⟩, rfl, Or.inr rfl, rfl⟩))
        | cons c rest =>
          obtain ⟨ct⟩ := c
          cases ct with
          | ok t => exact Or.inl ⟨⟨some (⟨.ok t⟩ :: rest), rp⟩, ⟨.ok t⟩, rest, t, rfl, rfl, rfl, rfl⟩
          | error m => exact Or.inr (Or.inr (Or.inl ⟨⟨some (⟨.error m⟩ :: rest), rp⟩, m, rfl, rfl⟩))
  · cases o2 with
    | requestExn m => exact Or.inr (Or.inl ⟨m, rfl, rfl⟩)
    | ok j =>
      obtain ⟨ch, rp⟩ := j
      cases ch with
      | none => exact Or.inr (Or.inr (Or.inr ⟨⟨none, rp⟩, rfl, Or.inl rfl, rfl⟩))
      | some cs =>
        cases cs with
        | nil => exact Or.inr (Or.inr (Or.inr ⟨⟨some [], rp⟩, rfl, Or.inr rfl, rfl⟩))
        | cons c rest =>
          obtain ⟨ct⟩ := c
          cases ct with
          | ok t => exact Or.inl ⟨⟨some (⟨.ok t⟩ :: rest), rp⟩, ⟨.ok t⟩, rest, t, rfl, rfl, rfl, rfl⟩
          | error m => exact Or.inr (Or.inr (Or.inl ⟨⟨some (⟨.error m⟩ :: rest), rp⟩, m, rfl, rfl⟩))

/-- C8: the upload pipeline is deterministic: with the uploaded file and the
entire environment (model outputs, save result, both API responses) fixed, two
runs of the handler produce identical responses — in particular identical
`feedback`, `recommendations` and `remixing_suggestions` strings — and
identical side effects. -/
theorem upload_deterministic (req1 req2 : UploadRequest) (env1 env2 : Env)
    (h1 : req1 = req2) (h2 : env1 = env2) :
    upload req1 env1 = upload req2 env2 := by
  rw [h1, h2]

theorem upload_deterministic_witness :
    upload ⟨some ⟨"a.png"⟩⟩ ⟨.ok (), .exn "x", .requestExn "n1", .requestExn "n2"⟩ =
      upload ⟨some ⟨"a.png"⟩⟩ ⟨.ok (), .exn "x", .requestExn "n1", .requestExn "n2"⟩ :=
  upload_deterministic _ _ _ _ rfl rfl

/-- C9: the handler saves to `os.path.join('uploads', filename)` with the
client-supplied filename completely unsanitized, and for some filenames the
resulting path resolves outside the uploads directory: a `..` component
escapes it and an absolute filename discards the `uploads` directory
entirely. -/
theorem upload_path_unsanitized :
    (∀ (f : FilePart) (env : Env), f.filename ≠ "" → env.saveResult = .ok () →
        Event.saved (os_path_join "uploads" f.filename) ∈ (upload ⟨some f⟩ env).2) ∧
    os_path_join "uploads" "../secret.png" = "uploads/../secret.png" ∧
    underUploads "uploads/../secret.png" = false ∧
    os_path_join "uploads" "/etc/passwd" = "/etc/passwd" ∧
    underUploads "/etc/passwd" = false := by
  refine ⟨?_, by decide, by decide, by decide, by decide⟩
  intro f env hf hsave
  obtain ⟨sr, inf, a1, a2⟩ := env
  simp only at hsave
  subst hsave
  simp [upload, hf]

theorem upload_path_unsanitized_witness :
    Event.saved "uploads/../secret.png" ∈
      (upload ⟨some ⟨"../secret.png"⟩⟩
        ⟨.ok (), .exn "x", .requestExn "n1", .requestExn "n2"⟩).2 := by
  have h := upload_path_unsanitized.1 ⟨"../secret.png"⟩
    ⟨.ok (), .exn "x", .requestExn "n1", .requestExn "n2"⟩ (by decide) rfl
  rw [show os_path_join "uploads" "../secret.png" = "uploads/../secret.png" by decide] at h
  exact h

/-- C10: `analyze_outfit` is total: an exception while opening the image or
running inference, and equally an `IndexError` while assembling the result
strings, yields the fixed fallback pair instead of propagating; the handler
then passes exactly these fallback strings on as the inputs of the two LLM
suggestion calls of a 200 response. -/
theorem analyze_total_fallback :
    (∀ m, analyze_outfit (.exn m) = (errFeedback, errDescription)) ∧
    (∀ o, analyzeCore o = none →
        analyze_outfit (.ok o) = (errFeedback, errDescription)) ∧
    (∀ (f : FilePart) (env : Env) m, f.filename ≠ "" → env.saveResult = .ok () →
        env.inference = .exn m →
        (upload ⟨some f⟩ env).1 =
          ⟨.success errFeedback (generate_suggestions errFeedback env.api1)
            (generate_remixing_suggestions errDescription env.api2), 200⟩) := by
  refine ⟨fun m => rfl, fun o h => by simp [analyze_outfit, h], ?_⟩
  intro f env m hf hsave hinf
  obtain ⟨sr, inf, a1, a2⟩ := env
  simp only at hsave hinf
  subst hsave
  subst hinf
  simp [upload, hf, analyze_outfit]

theorem analyze_total_fallback_witness :
    (upload ⟨some ⟨"a.png"⟩⟩ ⟨.ok (), .exn "boom", .requestExn "down1",
        .requestExn "down2"⟩).1 =
      ⟨.success "Error analyzing outfit." "Network error during API call: down1"
        "Network error during API call: down2", 200⟩ := by
  have h := analyze_total_fallback.2.2 ⟨"a.png"⟩
    ⟨.ok (), .exn "boom", .requestExn "down1", .requestExn "down2"⟩ "boom"
    (by decide) rfl rfl
  exact h.trans (by decide)
end Fashion
